import Mathlib

/-!
Shallow embedding of the dual-display VTT scene editor (src/main.c):
the spatial model (grid transforms, fog of war, calibration), the token
roster, and the binary save/load protocol (save_to_slot / load_from_slot).

Modelling conventions:
* C `int` is `Int` together with explicit 32-bit range hypotheses where a
  value crosses the serialized format; C `/` and `%` on `int` are
  truncating division (`Int.tdiv`) and remainder (`Int.tmod`).
* Files are `List Nat` of byte values; multi-byte integers use the
  little-endian layout actually produced by `fwrite` of the structs on a
  little-endian machine.  `sizeof(SaveFileHeader) = 300` (4 magic + 256
  path + 6*4 u32 + 1 u8 + 3 padding + 3*4 float), `sizeof(int) = 4`,
  `sizeof(bool) = 1`.
* `float` camera fields are only ever copied bit-for-bit by the save/load
  code, so they are carried as their raw 32-bit patterns (`Nat < 2^32`).
* Image decoding (`stbi_load`) and texture creation are external; they are
  modelled by an environment `Env` mapping a C path string to the decoded
  image dimensions (`none` = decode or texture failure).  `getcwd` is the
  environment's `cwd` field.
* `fread(p, a, b, f)` consumes `min (a*b) remaining` bytes and succeeds
  only when all `a*b` are available, matching stdio on a regular file.
* Memory allocation is assumed to succeed, and SDL texture bookkeeping
  (transient fields: `selected`, cached damage-number textures, texture
  handles) is not part of the persisted state and is omitted.
-/

/-- Byte of a C `bool`: `true` is stored as 1, `false` as 0. -/
def boolByte (b : Bool) : Nat := if b then 1 else 0

/-- The C string stored in a byte buffer: everything before the first NUL. -/
def cstr (s : List Nat) : List Nat := s.takeWhile (fun b => b != 0)

/-- A `char buf[n]` that was zero-initialized and then `strncpy`ed with at
most `n-1` characters of `s`: the string content followed by NUL padding. -/
def strFix (n : Nat) (s : List Nat) : List Nat :=
  let c := (cstr s).take (n - 1)
  c ++ List.replicate (n - c.length) 0

/-- Truncate or zero-pad a byte list to exactly `n` bytes. -/
def padTrunc (n : Nat) (s : List Nat) : List Nat :=
  s.take n ++ List.replicate (n - s.length) 0

/-- Little-endian 4-byte encoding of a 32-bit value. -/
def u32le (n : Nat) : List Nat :=
  let m := n % 4294967296
  [m % 256, m / 256 % 256, m / 65536 % 256, m / 16777216 % 256]

/-- Decode the first four bytes of a buffer as a little-endian `uint32_t`. -/
def decU32 (bs : List Nat) : Nat :=
  bs.getD 0 0 + 256 * bs.getD 1 0 + 65536 * bs.getD 2 0 + 16777216 * bs.getD 3 0

/-- Bit pattern (as a `Nat`) of a C `int` stored in a `uint32_t` or written
to disk: two's-complement reduction modulo 2^32. -/
def ofI32 (z : Int) : Nat := (z % 4294967296).toNat

/-- Read a 32-bit pattern back as a signed C `int` (two's complement). -/
def toI32 (n : Nat) : Int :=
  if n % 4294967296 < 2147483648 then ((n % 4294967296 : Nat) : Int)
  else ((n % 4294967296 : Nat) : Int) - 4294967296

/-- Little-endian 4-byte encoding of a C `int`. -/
def i32le (z : Int) : List Nat := u32le (ofI32 z)

/-- Persisted attributes of a `Token` (src/main.c lines 117-141).  The
transient fields (`selected`, SDL texture handles, the cached damage-number
textures and their bookkeeping) are never persisted and are omitted.
`name` and `filepath` are the raw `char[64]` / `char[256]` buffers. -/
structure Token where
  grid_x : Int
  grid_y : Int
  grid_size : Int
  name : List Nat
  filepath : List Nat
  hidden : Bool
  damage : Int
  squad : Int
  opacity : Nat
  conditions : List Bool
deriving Repr, DecidableEq

/-- Persisted attributes of the `Map` struct (texture handles omitted). -/
structure Map where
  width : Int
  height : Int
  grid_cols : Int
  grid_rows : Int
  grid_size : Int
  grid_offset_x : Int
  grid_offset_y : Int
  filepath : List Nat
  name : List Nat
deriving Repr, DecidableEq

/-- Model of `FogOfWar`: `cells` is the `rows × cols` boolean matrix (row-major,
`cells[row][col]`), `true` = visible. -/
structure FogOfWar where
  cells : List (List Bool)
  cols : Int
  rows : Int
deriving Repr, DecidableEq

/-- The six float fields of `Camera` as raw 32-bit patterns (the save/load
code only copies them); `view_width`/`view_height` are never persisted. -/
structure Camera where
  x : Nat
  y : Nat
  zoom : Nat
  target_x : Nat
  target_y : Nat
  target_zoom : Nat
deriving Repr, DecidableEq

/-- Model of `GridCalibration` state (src/main.c lines 274-284). -/
structure GridCalibration where
  active : Bool
  dragging : Bool
  start_x : Int
  start_y : Int
  end_x : Int
  end_y : Int
  cells_wide : Int
  cells_tall : Int
  calibrated_size : Int
  calibrated_offset_x : Int
  calibrated_offset_y : Int
deriving Repr, DecidableEq

/-- The aggregate state touched by `save_to_slot` / `load_from_slot`:
`g_map`, `g_tokens` (roster as a list, `count` = length), `g_fog`,
`g_input.show_grid` (the only `InputState` field the protocol touches),
`g_dm_camera`, `g_player_camera`, and `g_grid_calibration`. -/
structure Scene where
  map : Map
  tokens : List Token
  fog : FogOfWar
  show_grid : Bool
  camera : Camera
  playerCamera : Camera
  gcal : GridCalibration
deriving Repr, DecidableEq

/-- External collaborators: `img` models `stbi_load` plus SDL texture
creation (C path string to decoded width × height, `none` = failure) and
`cwd` models `getcwd` (used by `make_path_relative`). -/
structure Env where
  img : List Nat → Option (Int × Int)
  cwd : List Nat

/-- Source `grid_world_to_grid` (src/main.c lines 1104-1109): world pixel to grid
cell.  C `/` on `int` truncates toward zero, hence `Int.tdiv`. -/
def grid_world_to_grid (world_x world_y grid_size grid_offset_x grid_offset_y : Int) :
    Int × Int :=
  ((world_x - grid_offset_x).tdiv grid_size, (world_y - grid_offset_y).tdiv grid_size)

/-- The screen-to-grid transform as the specification words it: mathematical
floor of `(world - grid_offset) / cell_size` (floor toward negative
infinity).  Stated from the spec only, to compare against
`grid_world_to_grid`. -/
def grid_world_to_grid_floor_spec (world_x world_y grid_size grid_offset_x grid_offset_y : Int) :
    Int × Int :=
  ((world_x - grid_offset_x).fdiv grid_size, (world_y - grid_offset_y).fdiv grid_size)

/-- Source `fog_init` (lines 1177-1199): fresh `cols × rows` grid, every cell
visible (allocation assumed to succeed). -/
def fog_init (cols rows : Int) : FogOfWar :=
  { cells := List.replicate rows.toNat (List.replicate cols.toNat true)
    cols := cols
    rows := rows }

/-- Source `fog_is_visible` (lines 1211-1216): out-of-bounds reads are `false`. -/
def fog_is_visible (fog : FogOfWar) (grid_x grid_y : Int) : Bool :=
  if grid_x < 0 ∨ fog.cols ≤ grid_x ∨ grid_y < 0 ∨ fog.rows ≤ grid_y then false
  else ((fog.cells.getD grid_y.toNat []).getD grid_x.toNat false)

/-- Source `fog_toggle_cell` (lines 1218-1222): in-bounds cells are flipped,
out-of-bounds writes are no-ops. -/
def fog_toggle_cell (fog : FogOfWar) (grid_x grid_y : Int) : FogOfWar :=
  if 0 ≤ grid_x ∧ grid_x < fog.cols ∧ 0 ≤ grid_y ∧ grid_y < fog.rows then
    let row := fog.cells.getD grid_y.toNat []
    let row2 := row.set grid_x.toNat (!(row.getD grid_x.toNat false))
    { fog with cells := fog.cells.set grid_y.toNat row2 }
  else fog

/-- Source `fog_set_cell` (lines 1224-1228): out-of-bounds writes are no-ops. -/
def fog_set_cell (fog : FogOfWar) (grid_x grid_y : Int) (visible : Bool) : FogOfWar :=
  if 0 ≤ grid_x ∧ grid_x < fog.cols ∧ 0 ≤ grid_y ∧ grid_y < fog.rows then
    let row := fog.cells.getD grid_y.toNat []
    let row2 := row.set grid_x.toNat visible
    { fog with cells := fog.cells.set grid_y.toNat row2 }
  else fog

/-- Source `grid_calibration_apply` (lines 777-818).  Returns the updated
calibration state, map and fog.  A drag rectangle under 10×10 pixels
cancels calibration without touching the map or the fog. -/
def grid_calibration_apply (cal : GridCalibration) (m : Map) (fog : FogOfWar) :
    GridCalibration × Map × FogOfWar :=
  let width : Int := (cal.end_x - cal.start_x).natAbs
  let height : Int := (cal.end_y - cal.start_y).natAbs
  if width < 10 ∨ height < 10 then
    ({ cal with active := false }, m, fog)
  else
    let grid_size_x := width.tdiv cal.cells_wide
    let grid_size_y := height.tdiv cal.cells_tall
    let size := (grid_size_x + grid_size_y).tdiv 2
    let rect_left := if cal.start_x < cal.end_x then cal.start_x else cal.end_x
    let rect_top := if cal.start_y < cal.end_y then cal.start_y else cal.end_y
    let off_x := rect_left.tmod size
    let off_y := rect_top.tmod size
    let cols := (m.width + size - 1).tdiv size
    let rows := (m.height + size - 1).tdiv size
    let cal2 := { cal with
      active := false
      calibrated_size := size
      calibrated_offset_x := off_x
      calibrated_offset_y := off_y }
    let m2 := { m with
      grid_size := size
      grid_offset_x := off_x
      grid_offset_y := off_y
      grid_cols := cols
      grid_rows := rows }
    (cal2, m2, fog_init cols rows)

/-- Source `token_add` (lines 1484-1540): fails (`none`, roster unchanged) when the
roster is full or the image cannot be decoded; otherwise appends a token
with the default attribute values. -/
def token_add (env : Env) (mgr : List Token) (filepath : List Nat)
    (grid_x grid_y : Int) (name : List Nat) : Option (List Token) :=
  if 100 ≤ mgr.length then none
  else
    match env.img (cstr filepath) with
    | none => none
    | some _ =>
        let t : Token := {
          grid_x := grid_x
          grid_y := grid_y
          grid_size := 1
          name := strFix 64 name
          filepath := strFix 256 filepath
          hidden := false
          damage := 0
          squad := -1
          opacity := 255
          conditions := List.replicate 8 false }
        some (mgr ++ [t])

/-- Source `token_resize` (lines 1583-1591): the new footprint is applied only when
it stays within 1..4. -/
def token_resize (mgr : List Token) (index : Int) (delta : Int) : List Token :=
  if index < 0 ∨ (mgr.length : Int) ≤ index then mgr
  else
    match mgr.get? index.toNat with
    | none => mgr
    | some t =>
        let new_size := t.grid_size + delta
        if 1 ≤ new_size ∧ new_size ≤ 4 then
          mgr.set index.toNat { t with grid_size := new_size }
        else mgr

/-- Source `token_copy` (lines 1593-1651): appends a copy of token `index` at a new
position, re-decoding its image; fails on full roster or decode failure. -/
def token_copy (env : Env) (mgr : List Token) (index : Int)
    (new_grid_x new_grid_y : Int) : Option (List Token) :=
  if index < 0 ∨ (mgr.length : Int) ≤ index then none
  else if 100 ≤ mgr.length then none
  else
    match mgr.get? index.toNat with
    | none => none
    | some src =>
        match env.img (cstr src.filepath) with
        | none => none
        | some _ =>
            let t : Token := {
              grid_x := new_grid_x
              grid_y := new_grid_y
              grid_size := src.grid_size
              name := strFix 64 src.name
              filepath := strFix 256 src.filepath
              hidden := src.hidden
              damage := src.damage
              squad := src.squad
              opacity := src.opacity
              conditions := src.conditions }
            some (mgr ++ [t])

/-- Source `normalize_path_slashes` (lines 362-368): backslash (92) to slash (47). -/
def normalize_path_slashes (s : List Nat) : List Nat :=
  s.map (fun b => if b = 92 then 47 else b)

/-- ASCII `tolower`, as used by `strncasecmp`. -/
def lowerByte (b : Nat) : Nat := if 65 ≤ b ∧ b ≤ 90 then b + 32 else b

/-- Source `make_path_relative` (lines 370-400) on string contents: normalize the
slashes of both the path and the `getcwd` result, and when the path starts
with the cwd (case-insensitively) strip that prefix and one following
slash.  (Bytes left in the buffer beyond the moved terminator are not
observable through any C-string read and are not modelled.) -/
def make_path_relative (cwd s : List Nat) : List Nat :=
  let c := normalize_path_slashes cwd
  let p := normalize_path_slashes s
  if (p.take c.length).map lowerByte = c.map lowerByte then
    let rest := p.drop c.length
    if rest.getD 0 0 = 47 ∨ rest.getD 0 0 = 92 then rest.drop 1 else rest
  else p

/-- The 256-byte path field actually written by `save_to_slot` for the map
and for each token: `strncpy` into a buffer, `make_path_relative`, then
`normalize_path_slashes`, zero-padded to the field width. -/
def savedPathBytes (cwd s : List Nat) : List Nat :=
  padTrunc 256 (normalize_path_slashes (make_path_relative cwd ((cstr s).take 255)))

/-- Drop everything from the last occurrence of `b` on (inclusive); the
whole list when `b` does not occur.  Helper for `extract_filename`. -/
def upToLast (b : Nat) (s : List Nat) : List Nat :=
  if b ∈ s then ((s.reverse.drop ((s.reverse.takeWhile (fun x => x != b)).length + 1)).reverse)
  else s

/-- Everything after the last occurrence of `b`; the whole list when `b`
does not occur.  Helper for `extract_filename`. -/
def afterLast (b : Nat) (s : List Nat) : Option (List Nat) :=
  if b ∈ s then some ((s.reverse.takeWhile (fun x => x != b)).reverse) else none

/-- Source `extract_filename` (lines 350-360): basename after the last slash (or,
failing that, the last backslash), truncated to the 64-byte buffer, with
the extension after the last dot stripped. -/
def extract_filename (filepath : List Nat) : List Nat :=
  let base :=
    match afterLast 47 filepath with
    | some b => b
    | none =>
        match afterLast 92 filepath with
        | some b => b
        | none => filepath
  let name := (cstr base).take 63
  padTrunc 64 (upToLast 46 name)

/-- Source `map_init` (lines 1019-1029).  It does not touch `grid_offset_x/y`
(they keep their previous values) and resets the other fields. -/
def map_init (m : Map) : Map :=
  { m with
    width := 0
    height := 0
    grid_cols := 0
    grid_rows := 0
    grid_size := 64
    filepath := padTrunc 256 []
    name := padTrunc 64 [] }

/-- Source `map_load` (lines 1031-1091): decode the image at `filepath` (via the
environment), then derive the grid from `g_grid_calibration` (calibrated
size when positive, else the 64-pixel default) and cover the map with
ceil-divided rows/columns.  `none` = decode/texture failure (map fields
other than the ones set before the failure are not distinguished by any
claim, so failure is reported without a partial map). -/
def map_load (env : Env) (gcal : GridCalibration) (m : Map) (filepath : List Nat) :
    Option Map :=
  match env.img (cstr filepath) with
  | none => none
  | some (w, h) =>
      let gs := if 0 < gcal.calibrated_size then gcal.calibrated_size else 64
      let ox := if 0 < gcal.calibrated_size then gcal.calibrated_offset_x else 0
      let oy := if 0 < gcal.calibrated_size then gcal.calibrated_offset_y else 0
      some { m with
        width := w
        height := h
        grid_size := gs
        grid_offset_x := ox
        grid_offset_y := oy
        grid_cols := (w + gs - 1).tdiv gs
        grid_rows := (h + gs - 1).tdiv gs
        filepath := strFix 256 filepath
        name := extract_filename filepath }

/-- Model of `SaveFileHeader` (lines 229-242) with `uint32_t` fields as bit
patterns; `camera_*` are `float` bit patterns. -/
structure SaveFileHeader where
  magic : Nat
  map_path : List Nat
  token_count : Nat
  fog_cols : Nat
  fog_rows : Nat
  grid_size : Nat
  grid_offset_x : Nat
  grid_offset_y : Nat
  show_grid : Nat
  camera_x : Nat
  camera_y : Nat
  camera_zoom : Nat
deriving Repr, DecidableEq

/-- The 300 bytes of a `SaveFileHeader` as written by `fwrite` of the
zero-initialized struct: 4 magic, 256 path, six `uint32_t`, one `uint8_t`,
3 bytes of (zeroed) padding, three `float`s. -/
def encodeHeader (h : SaveFileHeader) : List Nat :=
  u32le h.magic ++ padTrunc 256 h.map_path ++ u32le h.token_count ++ u32le h.fog_cols ++
  u32le h.fog_rows ++ u32le h.grid_size ++ u32le h.grid_offset_x ++ u32le h.grid_offset_y ++
  [h.show_grid % 256] ++ [0, 0, 0] ++ u32le h.camera_x ++ u32le h.camera_y ++
  u32le h.camera_zoom

/-- Reading a `SaveFileHeader` back from the first 300 bytes of a file
(field offsets 0, 4, 260, 264, 268, 272, 276, 280, 284, 288, 292, 296,
expressed as successive suffixes). -/
def parseHeader (bs : List Nat) : SaveFileHeader :=
  let r1 := bs.drop 4
  let r2 := r1.drop 256
  let r3 := r2.drop 4
  let r4 := r3.drop 4
  let r5 := r4.drop 4
  let r6 := r5.drop 4
  let r7 := r6.drop 4
  let r8 := r7.drop 4
  let r9 := r8.drop 4
  { magic := decU32 bs
    map_path := r1.take 256
    token_count := decU32 r2
    fog_cols := decU32 r3
    fog_rows := decU32 r4
    grid_size := decU32 r5
    grid_offset_x := decU32 r6
    grid_offset_y := decU32 r7
    show_grid := r8.getD 0 0
    camera_x := decU32 r9
    camera_y := decU32 (r9.drop 4)
    camera_zoom := decU32 (r9.drop 8) }

/-- The 350 bytes of one token record as written by `save_to_slot` (lines
1773-1788): normalized 256-byte path, `grid_x`, `grid_y`, `grid_size`, the
raw 64-byte name, `hidden`, `damage`, `squad`, `opacity`, 8 condition
bytes. -/
def tokenRecordBytes (cwd : List Nat) (t : Token) : List Nat :=
  savedPathBytes cwd t.filepath ++ i32le t.grid_x ++ i32le t.grid_y ++ i32le t.grid_size ++
  padTrunc 64 t.name ++ [boolByte t.hidden] ++ i32le t.damage ++ i32le t.squad ++
  [t.opacity % 256] ++ (t.conditions.map boolByte).take 8 ++
  List.replicate (8 - t.conditions.length) 0

/-- The fog bitmap as written by `save_to_slot` (lines 1790-1792):
row-major, one byte per cell. -/
def fogBytes (fog : FogOfWar) : List Nat :=
  (fog.cells.map (fun row => row.map boolByte)).flatten

/-- The header `save_to_slot` fills in (lines 1755-1769): magic
`0x56545401`, normalized map path, counts, grid calibration, `show_grid`,
DM camera targets. -/
def saveHeader (env : Env) (s : Scene) : SaveFileHeader :=
  { magic := 0x56545401
    map_path := savedPathBytes env.cwd s.map.filepath
    token_count := s.tokens.length
    fog_cols := ofI32 s.fog.cols
    fog_rows := ofI32 s.fog.rows
    grid_size := ofI32 s.map.grid_size
    grid_offset_x := ofI32 s.map.grid_offset_x
    grid_offset_y := ofI32 s.map.grid_offset_y
    show_grid := boolByte s.show_grid
    camera_x := s.camera.target_x
    camera_y := s.camera.target_y
    camera_zoom := s.camera.target_zoom }

/-- Source `save_to_slot` (lines 1745-1797): the byte stream written to the slot
file — header, one record per token, fog bitmap. -/
def save_to_slot (env : Env) (s : Scene) : List Nat :=
  encodeHeader (saveHeader env s) ++ (s.tokens.map (tokenRecordBytes env.cwd)).flatten ++
  fogBytes s.fog

/-- Per-token byte count of the oldest layout V1 (path, three ints, name,
hidden), as computed at line 1840. -/
def token_data_size_v1 (tc : Nat) : Nat := tc * (256 + 4 * 3 + 64 + 1)

/-- V2 = V1 plus `damage` (line 1841). -/
def token_data_size_v2 (tc : Nat) : Nat := tc * (256 + 4 * 4 + 64 + 1)

/-- V3 = V2 plus `squad` (line 1842). -/
def token_data_size_v3 (tc : Nat) : Nat := tc * (256 + 4 * 5 + 64 + 1)

/-- V4 = V3 plus `opacity` (line 1843). -/
def token_data_size_v4 (tc : Nat) : Nat := tc * (256 + 4 * 5 + 64 + 1 + 1)

/-- V5 = V4 plus the eight condition bytes (line 1844). -/
def token_data_size_v5 (tc : Nat) : Nat := tc * (256 + 4 * 5 + 64 + 1 + 1 + 8)

/-- Expected total file size for version `v` given the header's token count
and fog dimensions (lines 1845-1851): header + token records + fog bytes.
The source computes the fog byte count at line 1845 as
`header.fog_rows * header.fog_cols * sizeof(bool)`: the left-associated
first multiply is `uint32_t * uint32_t` and wraps modulo 2^32 before the
result widens to `size_t`, so the fog term here is `fr * fc % 2^32`, not
the exact product (the two agree whenever the fog cell count is below
2^32). -/
def expected_size (v : Nat) (tc fc fr : Nat) : Nat :=
  300 + (match v with
    | 1 => token_data_size_v1 tc
    | 2 => token_data_size_v2 tc
    | 3 => token_data_size_v3 tc
    | 4 => token_data_size_v4 tc
    | _ => token_data_size_v5 tc) + fr * fc % 4294967296

/-- The loader's size heuristic (lines 1853-1863): the largest version whose
expected size is within 100 bytes below-or-at the actual size, else V1. -/
def detect_version (file_size tc fc fr : Nat) : Nat :=
  if expected_size 5 tc fc fr - 100 ≤ file_size then 5
  else if expected_size 4 tc fc fr - 100 ≤ file_size then 4
  else if expected_size 3 tc fc fr - 100 ≤ file_size then 3
  else if expected_size 2 tc fc fr - 100 ≤ file_size then 2
  else 1

/-- One `fread` of `n` bytes from the remaining stream: succeeds only when
all `n` bytes are available; a short read consumes whatever remains. -/
def readN (n : Nat) (bs : List Nat) : Option (List Nat) × List Nat :=
  if n ≤ bs.length then (some (bs.take n), bs.drop n) else (none, bs.drop n)

/-- The per-token values decoded from one record of the save stream. -/
structure TokenRead where
  filepath : List Nat
  grid_x : Int
  grid_y : Int
  grid_size : Int
  name : List Nat
  hidden : Bool
  damage : Int
  squad : Int
  opacity : Nat
  conditions : List Bool
deriving Repr, DecidableEq

/-- One iteration of the token-reading loop (lines 1915-1981): the six base
fields abort the loop on a short read (`none`); each version-gated trailer
field falls back to its safe default (damage 0, squad -1, opacity 255,
conditions all false) on a short read and the loop continues. -/
def readTokenRecord (ver : Nat) (bs : List Nat) : Option TokenRead × List Nat :=
  match readN 256 bs with
  | (none, r) => (none, r)
  | (some fp, r) =>
  match readN 4 r with
  | (none, r) => (none, r)
  | (some bx, r) =>
  match readN 4 r with
  | (none, r) => (none, r)
  | (some by2, r) =>
  match readN 4 r with
  | (none, r) => (none, r)
  | (some bsz, r) =>
  match readN 64 r with
  | (none, r) => (none, r)
  | (some nm, r) =>
  match readN 1 r with
  | (none, r) => (none, r)
  | (some hb, r) =>
      let dmg := if 2 ≤ ver then
          match readN 4 r with
          | (none, r2) => ((0 : Int), r2)
          | (some d, r2) => (toI32 (decU32 d), r2)
        else ((0 : Int), r)
      let sq := if 3 ≤ ver then
          match readN 4 dmg.2 with
          | (none, r2) => ((-1 : Int), r2)
          | (some d, r2) => (toI32 (decU32 d), r2)
        else ((-1 : Int), dmg.2)
      let op := if 4 ≤ ver then
          match readN 1 sq.2 with
          | (none, r2) => ((255 : Nat), r2)
          | (some d, r2) => (d.getD 0 0, r2)
        else ((255 : Nat), sq.2)
      let cs := if 5 ≤ ver then
          match readN 8 op.2 with
          | (none, r2) => (List.replicate 8 false, r2)
          | (some d, r2) => (d.map (fun b => b != 0), r2)
        else (List.replicate 8 false, op.2)
      (some {
        filepath := fp
        grid_x := toI32 (decU32 bx)
        grid_y := toI32 (decU32 by2)
        grid_size := toI32 (decU32 bsz)
        name := nm
        hidden := hb.getD 0 0 != 0
        damage := dmg.1
        squad := sq.1
        opacity := op.1
        conditions := cs.1 }, cs.2)

/-- After a successful `token_add` the loader overwrites the freshly added
(last) token's persisted attributes with the decoded values (lines
1986-1995); `grid_size` is assigned verbatim, without clamping. -/
def set_loaded_fields (mgr : List Token) (tr : TokenRead) : List Token :=
  match mgr.getLast? with
  | none => mgr
  | some t =>
      mgr.dropLast ++ [{ t with
        grid_size := tr.grid_size
        hidden := tr.hidden
        damage := tr.damage
        squad := tr.squad
        opacity := tr.opacity
        conditions := tr.conditions }]

/-- The token-reading loop of `load_from_slot`: up to `n` records;
a failed base-field read breaks out; a failed `token_add` (full roster or
undecodable image) drops the record silently and continues. -/
def loadTokens (env : Env) (ver : Nat) : Nat → List Token → List Nat → List Token × List Nat
  | 0, acc, bs => (acc, bs)
  | n + 1, acc, bs =>
      match readTokenRecord ver bs with
      | (none, r) => (acc, r)
      | (some tr, r) =>
          match token_add env acc tr.filepath tr.grid_x tr.grid_y tr.name with
          | none => loadTokens env ver n acc r
          | some mgr => loadTokens env ver n (set_loaded_fields mgr tr) r

/-- One fog row read (line 2007): fill the first `min readCols available`
cells from the stream, keep the rest of the row. -/
def loadFogRow (readCols : Nat) (row : List Bool) (bs : List Nat) : List Bool × List Nat :=
  let avail := min readCols bs.length
  ((bs.take avail).map (fun b => b != 0) ++ row.drop avail, bs.drop avail)

/-- The fog row loop (lines 2006-2014), with the per-row seek that skips
stored columns beyond the live grid's width. -/
def loadFogRows (readCols skipB : Nat) :
    List (List Bool) → List Nat → List (List Bool) × List Nat
  | [], bs => ([], bs)
  | row :: rows, bs =>
      let rb := loadFogRow readCols row bs
      let rec2 := loadFogRows readCols skipB rows (rb.2.drop skipB)
      (rb.1 :: rec2.1, rec2.2)

/-- Fog restore (lines 2001-2019): read `min(live, stored)` columns of
`min(live, stored)` rows into the freshly initialized fog, skipping excess
stored columns per row and excess stored rows at the end.  (A negative
`fog_read_cols`/`fog_read_rows` — impossible for states produced by the
program — is clamped to zero by `toNat`; in C it would be a huge `size_t`
read, undefined behaviour no claim depends on.) -/
def loadFog (fog : FogOfWar) (hdr_cols hdr_rows : Nat) (bs : List Nat) :
    FogOfWar × List Nat :=
  let read_cols : Int := if fog.cols < toI32 hdr_cols then fog.cols else toI32 hdr_cols
  let read_rows : Int := if fog.rows < toI32 hdr_rows then fog.rows else toI32 hdr_rows
  let skipB : Nat := if fog.cols < toI32 hdr_cols then ofI32 ((hdr_cols : Int) - fog.cols) else 0
  let lr := loadFogRows read_cols.toNat skipB (fog.cells.take read_rows.toNat) bs
  let bs3 := if fog.rows < toI32 hdr_rows then
      lr.2.drop ((ofI32 ((hdr_rows : Int) - fog.rows) * hdr_cols) % 4294967296)
    else lr.2
  ({ fog with cells := lr.1 ++ fog.cells.drop read_rows.toNat }, bs3)

/-- Source `load_from_slot` (lines 1799-2034) on an already-opened file image.
Returns the success flag and the new global state.  Failure cases in
order: file shorter than the header (too small / short header read), bad
magic — both leave every global untouched; then the calibration globals
are overwritten from the header, the old map/roster/fog are destroyed and
the map is reloaded — on map failure the state is left reset (empty map,
empty roster, 10×10 fog).  On success the grid is recomputed from the
header, tokens are read according to the size-detected version, the fog is
restored, and `show_grid` plus both cameras are set from the header. -/
def load_from_slot (env : Env) (file : List Nat) (s : Scene) : Bool × Scene :=
  if file.length < 300 then (false, s)
  else
    let hdr := parseHeader file
    if hdr.magic ≠ 0x56545401 then (false, s)
    else
      let gcal2 := { s.gcal with
        calibrated_size := toI32 hdr.grid_size
        calibrated_offset_x := toI32 hdr.grid_offset_x
        calibrated_offset_y := toI32 hdr.grid_offset_y }
      match map_load env gcal2 s.map hdr.map_path with
      | none =>
          (false, { s with
            map := map_init s.map
            tokens := []
            fog := fog_init 10 10
            gcal := gcal2 })
      | some m0 =>
          let gs := toI32 hdr.grid_size
          let m := { m0 with
            grid_size := gs
            grid_offset_x := toI32 hdr.grid_offset_x
            grid_offset_y := toI32 hdr.grid_offset_y
            grid_cols := (m0.width + gs - 1).tdiv gs
            grid_rows := (m0.height + gs - 1).tdiv gs }
          let fog0 := fog_init m.grid_cols m.grid_rows
          let ver := detect_version file.length hdr.token_count hdr.fog_cols hdr.fog_rows
          let tk := loadTokens env ver hdr.token_count [] (file.drop 300)
          let fg := loadFog fog0 hdr.fog_cols hdr.fog_rows tk.2
          let cam := { s.camera with
            target_x := hdr.camera_x
            target_y := hdr.camera_y
            target_zoom := hdr.camera_zoom
            zoom := hdr.camera_zoom }
          (true, { s with
            map := m
            tokens := tk.1
            fog := fg.1
            show_grid := hdr.show_grid != 0
            camera := cam
            playerCamera := cam
            gcal := gcal2 })

/-- A value representable by a C `int` (32-bit two's complement). -/
def int32Range (z : Int) : Prop := -2147483648 ≤ z ∧ z < 2147483648

/-- The invariants every `Token` produced by the program satisfies, plus the
capacity-bound requirement of the round-trip claim that the token's image
(under the path actually written to the save file) is decodable: 32-bit
attribute values, a zero-padded 64-byte name buffer, eight condition
flags. -/
def TokenWF (env : Env) (t : Token) : Prop :=
  int32Range t.grid_x ∧ int32Range t.grid_y ∧ int32Range t.grid_size ∧
  int32Range t.damage ∧ int32Range t.squad ∧ t.opacity < 256 ∧
  strFix 64 t.name = t.name ∧ t.conditions.length = 8 ∧
  (env.img (cstr (savedPathBytes env.cwd t.filepath))).isSome = true

/-- A `SceneState` within capacity bounds, with the data-model invariants
the program maintains (grid cell size positive and 32-bit, fog dimensions
matching the grid cover of the map, fog matrix of the declared shape,
camera patterns 32-bit) and a consistent environment: the saved map path
decodes to the same image dimensions the live map has. -/
def SceneWF (env : Env) (s : Scene) : Prop :=
  s.tokens.length ≤ 100 ∧
  (∀ t ∈ s.tokens, TokenWF env t) ∧
  0 < s.map.grid_size ∧ s.map.grid_size < 2147483648 ∧
  int32Range s.map.grid_offset_x ∧ int32Range s.map.grid_offset_y ∧
  0 ≤ s.map.width ∧ s.map.width < 2147483648 ∧
  0 ≤ s.map.height ∧ s.map.height < 2147483648 ∧
  env.img (cstr (savedPathBytes env.cwd s.map.filepath)) = some (s.map.width, s.map.height) ∧
  s.fog.cols = (s.map.width + s.map.grid_size - 1).tdiv s.map.grid_size ∧
  s.fog.rows = (s.map.height + s.map.grid_size - 1).tdiv s.map.grid_size ∧
  s.fog.cells.length = s.fog.rows.toNat ∧
  (∀ row ∈ s.fog.cells, row.length = s.fog.cols.toNat) ∧
  s.camera.target_x < 4294967296 ∧ s.camera.target_y < 4294967296 ∧
  s.camera.target_zoom < 4294967296

/-- Equality of the persisted attributes of two tokens: everything except
the image path (which the save normalizes) and the transient fields. -/
def Token.persistEq (a b : Token) : Prop :=
  a.grid_x = b.grid_x ∧ a.grid_y = b.grid_y ∧ a.grid_size = b.grid_size ∧
  a.name = b.name ∧ a.hidden = b.hidden ∧ a.damage = b.damage ∧
  a.squad = b.squad ∧ a.opacity = b.opacity ∧ a.conditions = b.conditions

/-- The persisted fields of the round-trip claim: token count, per-token
persisted attributes, grid size and offsets, fog bitmap, grid visibility
and the camera target pose. -/
def persistedEq (a b : Scene) : Prop :=
  a.tokens.length = b.tokens.length ∧
  List.Forall₂ Token.persistEq a.tokens b.tokens ∧
  a.map.grid_size = b.map.grid_size ∧
  a.map.grid_offset_x = b.map.grid_offset_x ∧
  a.map.grid_offset_y = b.map.grid_offset_y ∧
  a.fog.cells = b.fog.cells ∧
  a.show_grid = b.show_grid ∧
  a.camera.target_x = b.camera.target_x ∧
  a.camera.target_y = b.camera.target_y ∧
  a.camera.target_zoom = b.camera.target_zoom

/-- The token `load_from_slot` reconstructs from the record saved for `t`:
identical persisted attributes, re-`strncpy`ed name and normalized path. -/
def loadedToken (env : Env) (t : Token) : Token :=
  { grid_x := t.grid_x
    grid_y := t.grid_y
    grid_size := t.grid_size
    name := strFix 64 t.name
    filepath := strFix 256 (savedPathBytes env.cwd t.filepath)
    hidden := t.hidden
    damage := t.damage
    squad := t.squad
    opacity := t.opacity
    conditions := t.conditions }

/-- Default trailer values: what a token loaded from a V1 record carries. -/
def hasDefaultTrailers (t : Token) : Prop :=
  t.damage = 0 ∧ t.squad = -1 ∧ t.opacity = 255 ∧ t.conditions = List.replicate 8 false

/-- Concrete environment for witnesses: two decodable images, paths `m`
and `a`; the working directory is unrelated to either path. -/
def envW : Env :=
  { img := fun s => if s = [109] then some (64, 64) else if s = [97] then some (32, 32) else none
    cwd := [120] }

/-- Environment in which no image decodes (every `stbi_load` fails). -/
def envNone : Env := { img := fun _ => none, cwd := [120] }

/-- Concrete well-formed token for witnesses. -/
def tokW : Token :=
  { grid_x := 2
    grid_y := -3
    grid_size := 2
    name := strFix 64 [98, 99]
    filepath := strFix 256 [97]
    hidden := true
    damage := 7
    squad := 3
    opacity := 128
    conditions := [true, false, false, false, false, false, false, true] }

/-- Concrete well-formed scene (64×64 map, one-cell grid, one token) for
witnesses and counterexamples. -/
def sceneW : Scene :=
  { map := {
      width := 64
      height := 64
      grid_cols := 1
      grid_rows := 1
      grid_size := 64
      grid_offset_x := 5
      grid_offset_y := -6
      filepath := strFix 256 [109]
      name := strFix 64 [110] }
    tokens := [tokW]
    fog := { cells := [[false]], cols := 1, rows := 1 }
    show_grid := true
    camera := { x := 1, y := 2, zoom := 3, target_x := 4, target_y := 5, target_zoom := 6 }
    playerCamera := { x := 0, y := 0, zoom := 0, target_x := 0, target_y := 0, target_zoom := 0 }
    gcal := { active := false, dragging := false, start_x := 0, start_y := 0,
              end_x := 0, end_y := 0, cells_wide := 2, cells_tall := 2,
              calibrated_size := 0, calibrated_offset_x := 0, calibrated_offset_y := 0 } }

/-- A second scene (empty roster) used as the pre-load state of a fresh
process in round-trip witnesses. -/
def sceneEmptyW : Scene := { sceneW with tokens := [], show_grid := false }

/-- A V1-layout token record: path `a`, position (1,2), footprint 1, name
`b`, hidden — 333 bytes, no trailer fields. -/
def recV1W : List Nat :=
  strFix 256 [97] ++ i32le 1 ++ i32le 2 ++ i32le 1 ++ strFix 64 [98] ++ [1]

/-- Header declaring 26 tokens and an empty fog grid (for the V1-size
witness file). -/
def hdrV1W : SaveFileHeader :=
  { magic := 0x56545401
    map_path := strFix 256 [109]
    token_count := 26
    fog_cols := 0
    fog_rows := 0
    grid_size := 64
    grid_offset_x := 0
    grid_offset_y := 0
    show_grid := 1
    camera_x := 0
    camera_y := 0
    camera_zoom := 0 }

/-- A file of exactly the V1 expected size for 26 tokens. -/
def fileV1W : List Nat := encodeHeader hdrV1W ++ (List.replicate 26 recV1W).flatten

/-- A V5-layout token record whose stored footprint is 7 (outside 1..4). -/
def recSize7 : List Nat :=
  strFix 256 [97] ++ i32le 0 ++ i32le 0 ++ i32le 7 ++ strFix 64 [98] ++ [0] ++
  i32le 0 ++ i32le (-1) ++ [255] ++ List.replicate 8 0

/-- Header for the single-token footprint-7 file (empty fog grid). -/
def hdrSize7 : SaveFileHeader := { hdrV1W with token_count := 1 }

/-- A well-formed V5 save file whose only token record declares footprint 7. -/
def fileSize7 : List Nat := encodeHeader hdrSize7 ++ recSize7

/-- Header declaring one token and a 5×5 fog grid. -/
def hdrV1Bad : SaveFileHeader := { hdrV1W with token_count := 1, fog_cols := 5, fog_rows := 5 }

/-- A file of exactly the V1 expected size for one token and a 5×5
all-visible fog bitmap (333 token bytes + 25 fog bytes). -/
def fileV1Bad : List Nat := encodeHeader hdrV1Bad ++ recV1W ++ List.replicate 25 1

/-- The calibration drag of the scenario: world rectangle (50,50)-(250,250)
declared as 2×2 cells. -/
def calW : GridCalibration :=
  { active := true, dragging := true, start_x := 50, start_y := 50,
    end_x := 250, end_y := 250, cells_wide := 2, cells_tall := 2,
    calibrated_size := 0, calibrated_offset_x := 0, calibrated_offset_y := 0 }

/-- A degenerate calibration drag: 5×200 pixels, below the 10×10 minimum. -/
def calSmallW : GridCalibration := { calW with end_x := 55 }

/-- The calibration globals as `load_from_slot` rewrites them from the
header (lines 1876-1879). -/
def gcalFromHeader (g : GridCalibration) (hdr : SaveFileHeader) : GridCalibration :=
  { g with
    calibrated_size := toI32 hdr.grid_size
    calibrated_offset_x := toI32 hdr.grid_offset_x
    calibrated_offset_y := toI32 hdr.grid_offset_y }

/-- The state produced by the success path of `load_from_slot` (map loaded,
grid recomputed, tokens and fog read, cameras set).  `load_from_slot`
returns `(true, loadSuccessScene …)` whenever the header validates and the
map decodes. -/
def loadSuccessScene (env : Env) (file : List Nat) (s : Scene) (m0 : Map) : Scene :=
  let hdr := parseHeader file
  let gs := toI32 hdr.grid_size
  let m := { m0 with
    grid_size := gs
    grid_offset_x := toI32 hdr.grid_offset_x
    grid_offset_y := toI32 hdr.grid_offset_y
    grid_cols := (m0.width + gs - 1).tdiv gs
    grid_rows := (m0.height + gs - 1).tdiv gs }
  let fog0 := fog_init m.grid_cols m.grid_rows
  let ver := detect_version file.length hdr.token_count hdr.fog_cols hdr.fog_rows
  let tk := loadTokens env ver hdr.token_count [] (file.drop 300)
  let fg := loadFog fog0 hdr.fog_cols hdr.fog_rows tk.2
  let cam := { s.camera with
    target_x := hdr.camera_x
    target_y := hdr.camera_y
    target_zoom := hdr.camera_zoom
    zoom := hdr.camera_zoom }
  { s with
    map := m
    tokens := tk.1
    fog := fg.1
    show_grid := hdr.show_grid != 0
    camera := cam
    playerCamera := cam
    gcal := gcalFromHeader s.gcal hdr }

/-- The data model's footprint range: a token occupies 1..4 grid cells. -/
def footprintOK (t : Token) : Prop := 1 ≤ t.grid_size ∧ t.grid_size ≤ 4

-- ==========================================================================
-- Theorems
-- ==========================================================================

theorem decU32_u32le_append (n : Nat) (r : List Nat) :
    decU32 (u32le n ++ r) = n % 4294967296 := by
  simp only [u32le, decU32, List.cons_append, List.getD_cons_zero, List.getD_cons_succ]
  omega

theorem decU32_u32le (n : Nat) : decU32 (u32le n) = n % 4294967296 := by
  have h := decU32_u32le_append n []
  simpa using h

theorem toI32_decU32_i32le (z : Int) (r : List Nat)
    (h1 : -2147483648 ≤ z) (h2 : z < 2147483648) :
    toI32 (decU32 (i32le z ++ r)) = z := by
  simp only [i32le, decU32_u32le_append, toI32, ofI32]
  omega

theorem toI32_decU32_i32le_self (z : Int)
    (h1 : -2147483648 ≤ z) (h2 : z < 2147483648) :
    toI32 (decU32 (i32le z)) = z := by
  have h := toI32_decU32_i32le z [] h1 h2
  simpa using h

theorem toI32_ofI32 (z : Int) (h1 : -2147483648 ≤ z) (h2 : z < 2147483648) :
    toI32 (ofI32 z) = z := by
  simp only [toI32, ofI32]
  omega

theorem ofI32_of_nonneg (z : Int) (h1 : 0 ≤ z) (h2 : z < 2147483648) :
    (ofI32 z : Int) = z := by
  simp only [ofI32]
  omega

theorem u32le_length (n : Nat) : (u32le n).length = 4 := rfl

theorem i32le_length (z : Int) : (i32le z).length = 4 := rfl

theorem padTrunc_length (n : Nat) (s : List Nat) : (padTrunc n s).length = n := by
  simp only [padTrunc, List.length_append, List.length_take, List.length_replicate]
  omega

theorem padTrunc_eq_self (n : Nat) (s : List Nat) (h : s.length = n) :
    padTrunc n s = s := by
  simp [padTrunc, h, List.take_of_length_le (Nat.le_of_eq h)]

theorem strFix_length (n : Nat) (hn : 1 ≤ n) (s : List Nat) :
    (strFix n s).length = n := by
  simp only [strFix, List.length_append, List.length_take, List.length_replicate]
  omega

theorem savedPathBytes_length (cwd s : List Nat) :
    (savedPathBytes cwd s).length = 256 := padTrunc_length 256 _

theorem tokenRecordBytes_length (cwd : List Nat) (t : Token) :
    (tokenRecordBytes cwd t).length = 350 := by
  simp only [tokenRecordBytes, List.length_append, savedPathBytes_length, i32le_length,
    padTrunc_length, List.length_cons, List.length_nil, List.length_take,
    List.length_replicate, List.length_map]
  omega

theorem encodeHeader_length (h : SaveFileHeader) : (encodeHeader h).length = 300 := by
  simp only [encodeHeader, List.length_append, u32le_length, padTrunc_length,
    List.length_cons, List.length_nil]

/-- C3 (code side): for a world point one pixel left/above the grid origin
with 64-pixel cells, the code's integer division truncates toward zero and
yields cell (0,0), while the floor semantics the specification requires
yield (-1,-1). -/
theorem c3_world_to_grid_truncates :
    grid_world_to_grid (-1) (-1) 64 0 0 = (0, 0) ∧
    grid_world_to_grid_floor_spec (-1) (-1) 64 0 0 = (-1, -1) ∧
    grid_world_to_grid (-1) (-1) 64 0 0 ≠ grid_world_to_grid_floor_spec (-1) (-1) 64 0 0 := by
  refine ⟨by decide, by decide, by decide⟩

/-- C5: for every fog grid and every coordinate outside
`[0,cols) × [0,rows)`, reads return false and both writers are no-ops. -/
theorem c5_fog_out_of_bounds (fog : FogOfWar) (gx gy : Int) (v : Bool)
    (h : gx < 0 ∨ fog.cols ≤ gx ∨ gy < 0 ∨ fog.rows ≤ gy) :
    fog_is_visible fog gx gy = false ∧
    fog_set_cell fog gx gy v = fog ∧
    fog_toggle_cell fog gx gy = fog := by
  refine ⟨?_, ?_, ?_⟩
  · unfold fog_is_visible
    exact if_pos h
  · unfold fog_set_cell
    rw [if_neg]
    rintro ⟨h1, h2, h3, h4⟩
    rcases h with h | h | h | h <;> omega
  · unfold fog_toggle_cell
    rw [if_neg]
    rintro ⟨h1, h2, h3, h4⟩
    rcases h with h | h | h | h <;> omega

theorem map_load_isSome (env : Env) (gcal : GridCalibration) (m : Map) (fp : List Nat) :
    (map_load env gcal m fp).isSome = (env.img (cstr fp)).isSome := by
  unfold map_load
  cases h : env.img (cstr fp) with
  | none => simp
  | some wh => cases wh; simp

theorem load_from_slot_too_small (env : Env) (file : List Nat) (s : Scene)
    (h : file.length < 300) :
    load_from_slot env file s = (false, s) := by
  unfold load_from_slot
  rw [if_pos h]

theorem load_from_slot_bad_magic (env : Env) (file : List Nat) (s : Scene)
    (hlen : ¬ file.length < 300) (h : (parseHeader file).magic ≠ 0x56545401) :
    load_from_slot env file s = (false, s) := by
  unfold load_from_slot
  rw [if_neg hlen]
  simp only []
  rw [if_pos h]

theorem load_from_slot_map_failure (env : Env) (file : List Nat) (s : Scene)
    (hlen : ¬ file.length < 300)
    (hmagic : (parseHeader file).magic = 0x56545401)
    (hmap : env.img (cstr (parseHeader file).map_path) = none) :
    load_from_slot env file s =
      (false, { s with
        map := map_init s.map
        tokens := []
        fog := fog_init 10 10
        gcal := gcalFromHeader s.gcal (parseHeader file) }) := by
  unfold load_from_slot gcalFromHeader
  rw [if_neg hlen]
  simp only []
  rw [if_neg (by simp [hmagic])]
  have hml : map_load env (gcalFromHeader s.gcal (parseHeader file)) s.map
      (parseHeader file).map_path = none := by
    unfold map_load
    rw [hmap]
  unfold gcalFromHeader at hml
  rw [hml]

theorem load_from_slot_success (env : Env) (file : List Nat) (s : Scene) (m0 : Map)
    (hlen : ¬ file.length < 300)
    (hmagic : (parseHeader file).magic = 0x56545401)
    (hmap : map_load env (gcalFromHeader s.gcal (parseHeader file)) s.map
      (parseHeader file).map_path = some m0) :
    load_from_slot env file s = (true, loadSuccessScene env file s m0) := by
  unfold load_from_slot loadSuccessScene gcalFromHeader
  rw [if_neg hlen]
  simp only []
  rw [if_neg (by simp [hmagic])]
  unfold gcalFromHeader at hmap
  rw [hmap]

/-- C6: a file whose magic differs from `0x56545401` is rejected with every
piece of scene state (map, roster, fog, calibration, input, cameras)
untouched; this also covers files too short to contain a header. -/
theorem c6_wrong_magic_rejected (env : Env) (file : List Nat) (s : Scene)
    (h : decU32 file ≠ 0x56545401) :
    load_from_slot env file s = (false, s) := by
  by_cases hlen : file.length < 300
  · exact load_from_slot_too_small env file s hlen
  · exact load_from_slot_bad_magic env file s hlen h

/-- Witness for C6 at a concrete empty file and concrete scene. -/
theorem c6_wrong_magic_rejected_witness :
    load_from_slot envW [] sceneW = (false, sceneW) :=
  c6_wrong_magic_rejected envW [] sceneW (by decide)

/-- Witness for C5 at a concrete fog grid and out-of-bounds coordinate. -/
theorem c5_fog_out_of_bounds_witness :
    fog_is_visible { cells := [[true]], cols := 1, rows := 1 } 1 0 = false ∧
    fog_set_cell { cells := [[true]], cols := 1, rows := 1 } 1 0 false =
      { cells := [[true]], cols := 1, rows := 1 } ∧
    fog_toggle_cell { cells := [[true]], cols := 1, rows := 1 } 1 0 =
      { cells := [[true]], cols := 1, rows := 1 } :=
  c5_fog_out_of_bounds { cells := [[true]], cols := 1, rows := 1 } 1 0 false
    (by right; left; decide)

/-- C8: applying the calibration drag (50,50)-(250,250) declared 2×2 gives
cell size 100 and grid offsets (50,50) on any map; and any drag whose
rectangle is under the 10×10 pixel minimum leaves the map's grid fields
and the fog grid untouched (only the calibration mode flag is cleared). -/
theorem c8_calibration_apply (cal : GridCalibration) (m m2 : Map) (fog fog2 : FogOfWar)
    (hsmall : ((cal.end_x - cal.start_x).natAbs : Int) < 10 ∨
      ((cal.end_y - cal.start_y).natAbs : Int) < 10) :
    ((grid_calibration_apply calW m fog).2.1.grid_size = 100 ∧
     (grid_calibration_apply calW m fog).2.1.grid_offset_x = 50 ∧
     (grid_calibration_apply calW m fog).2.1.grid_offset_y = 50) ∧
    grid_calibration_apply cal m2 fog2 = ({ cal with active := false }, m2, fog2) := by
  constructor
  · unfold grid_calibration_apply calW
    norm_num
    decide
  · unfold grid_calibration_apply
    rw [if_pos hsmall]

/-- Witness for C8: the scenario conjunct at a concrete map and fog, and the
no-op conjunct at a concrete 5×200-pixel drag. -/
theorem c8_calibration_apply_witness :
    ((grid_calibration_apply calW sceneW.map sceneW.fog).2.1.grid_size = 100 ∧
     (grid_calibration_apply calW sceneW.map sceneW.fog).2.1.grid_offset_x = 50 ∧
     (grid_calibration_apply calW sceneW.map sceneW.fog).2.1.grid_offset_y = 50) ∧
    grid_calibration_apply calSmallW sceneW.map sceneW.fog =
      ({ calSmallW with active := false }, sceneW.map, sceneW.fog) :=
  c8_calibration_apply calSmallW sceneW.map sceneW.map sceneW.fog sceneW.fog (by decide)

/-- C4 counterexample: a file of exactly the V2 expected size for one token
and an empty fog grid is classified as V5, not V2 — the 100-byte tolerance
reaches the larger versions' expected sizes when few tokens are stored. -/
theorem c4_counterexample_v2_size_detected_v5 :
    detect_version (expected_size 2 1 0 0) 1 0 0 = 5 ∧
    detect_version (expected_size 2 1 0 0) 1 0 0 ≠ 2 := by
  constructor
  · decide
  · decide

/-- C4 (amended): with at least 26 tokens declared — so that the 100-byte
tolerance cannot bridge the 4-bytes-per-token gap to V3 — and a fog cell
count below 2^32 — so that the uint32 multiply at line 1845 does not wrap
and the program's size table matches the exact formula — a file of exactly
the V2 expected size `300 + tc * 337 + R * C` is detected as V2, never V3,
V4 or V5. -/
theorem c4_v2_size_detected_v2 (tc fc fr : Nat) (htc : 26 ≤ tc)
    (hfog : fr * fc < 4294967296) :
    detect_version (300 + tc * 337 + fr * fc) tc fc fr = 2 := by
  have hm : fr * fc % 4294967296 = fr * fc := Nat.mod_eq_of_lt hfog
  have h5 : expected_size 5 tc fc fr = 300 + tc * 350 + fr * fc := by
    norm_num [expected_size, token_data_size_v5, hm]
  have h4 : expected_size 4 tc fc fr = 300 + tc * 342 + fr * fc := by
    norm_num [expected_size, token_data_size_v4, hm]
  have h3 : expected_size 3 tc fc fr = 300 + tc * 341 + fr * fc := by
    norm_num [expected_size, token_data_size_v3, hm]
  have h2 : expected_size 2 tc fc fr = 300 + tc * 337 + fr * fc := by
    norm_num [expected_size, token_data_size_v2, hm]
  unfold detect_version
  rw [h5, h4, h3, h2]
  rw [if_neg (by omega), if_neg (by omega), if_neg (by omega), if_pos (by omega)]

/-- Witness for C4 at 26 tokens and a 3×4 fog grid. -/
theorem c4_v2_size_detected_v2_witness :
    detect_version (300 + 26 * 337 + 4 * 3) 26 3 4 = 2 :=
  c4_v2_size_detected_v2 26 3 4 (by decide) (by decide)

set_option maxRecDepth 100000 in
/-- C2 counterexample: loading a well-formed save file in an environment
where the referenced map image fails to decode returns the failure outcome,
yet the previous in-memory scene is NOT intact: the roster has been
destroyed (among other resets) before the map load was attempted. -/
theorem c2_counterexample_failure_not_intact :
    (load_from_slot envNone (save_to_slot envW sceneW) sceneW).1 = false ∧
    (load_from_slot envNone (save_to_slot envW sceneW) sceneW).2.tokens = [] ∧
    sceneW.tokens ≠ [] := by
  refine ⟨by decide, by decide, by decide⟩

/-- C2 (amended): failures detected before the header is validated (file
unopenable, too small, short header, wrong magic) leave the scene intact;
but once the header validates, the loader destroys the map, roster and fog
before reloading the map, so a map-load failure leaves the scene RESET —
empty map (offsets retained), empty roster, fresh 10×10 all-visible fog —
with the calibration globals already overwritten from the header. -/
theorem c2_failure_outcomes (env : Env) (file : List Nat) (s : Scene)
    (hmagic : (parseHeader file).magic = 0x56545401)
    (hmap : env.img (cstr (parseHeader file).map_path) = none) :
    (∀ f2 : List Nat, decU32 f2 ≠ 0x56545401 → load_from_slot env f2 s = (false, s)) ∧
    (¬ file.length < 300 →
      load_from_slot env file s =
        (false, { s with
          map := map_init s.map
          tokens := []
          fog := fog_init 10 10
          gcal := gcalFromHeader s.gcal (parseHeader file) })) := by
  constructor
  · intro f2 h2
    by_cases hl : f2.length < 300
    · exact load_from_slot_too_small env f2 s hl
    · exact load_from_slot_bad_magic env f2 s hl h2
  · intro hlen
    exact load_from_slot_map_failure env file s hlen hmagic hmap

/-- Witness for C2 (amended) on the concrete save of `sceneW` loaded in the
no-image environment. -/
theorem c2_failure_outcomes_witness :
    (∀ f2 : List Nat, decU32 f2 ≠ 0x56545401 →
      load_from_slot envNone f2 sceneW = (false, sceneW)) ∧
    (¬ (save_to_slot envW sceneW).length < 300 →
      load_from_slot envNone (save_to_slot envW sceneW) sceneW =
        (false, { sceneW with
          map := map_init sceneW.map
          tokens := []
          fog := fog_init 10 10
          gcal := gcalFromHeader sceneW.gcal (parseHeader (save_to_slot envW sceneW)) })) :=
  c2_failure_outcomes envNone (save_to_slot envW sceneW) sceneW (by decide) (by decide)

theorem token_add_eq_some (env : Env) (mgr : List Token) (fp : List Nat)
    (gx gy : Int) (nm : List Nat) (mgr2 : List Token)
    (h : token_add env mgr fp gx gy nm = some mgr2) :
    mgr.length < 100 ∧ ∃ t0, mgr2 = mgr ++ [t0] := by
  unfold token_add at h
  by_cases hc : 100 ≤ mgr.length
  · rw [if_pos hc] at h
    simp at h
  · rw [if_neg hc] at h
    cases he : env.img (cstr fp) with
    | none =>
        rw [he] at h
        simp at h
    | some wh =>
        rw [he] at h
        simp only [Option.some.injEq] at h
        exact ⟨by omega, _, h.symm⟩

theorem token_add_success (env : Env) (mgr : List Token) (fp : List Nat)
    (gx gy : Int) (nm : List Nat)
    (hlen : mgr.length < 100) (himg : (env.img (cstr fp)).isSome = true) :
    token_add env mgr fp gx gy nm =
      some (mgr ++ [{ grid_x := gx, grid_y := gy, grid_size := 1, name := strFix 64 nm, filepath := strFix 256 fp, hidden := false, damage := 0, squad := -1, opacity := 255, conditions := List.replicate 8 false }]) := by
  unfold token_add
  rw [if_neg (by omega)]
  cases h : env.img (cstr fp) with
  | none => rw [h] at himg; simp at himg
  | some wh => rfl

theorem set_loaded_fields_append (mgr : List Token) (t0 : Token) (tr : TokenRead) :
    set_loaded_fields (mgr ++ [t0]) tr =
      mgr ++ [{ t0 with grid_size := tr.grid_size, hidden := tr.hidden, damage := tr.damage, squad := tr.squad, opacity := tr.opacity, conditions := tr.conditions }] := by
  unfold set_loaded_fields
  simp

theorem loadTokens_length_le (env : Env) (ver : Nat) :
    ∀ (n : Nat) (acc : List Token) (bs : List Nat), acc.length ≤ 100 →
      ((loadTokens env ver n acc bs).1).length ≤ 100 := by
  intro n
  induction n with
  | zero => intro acc bs h; simpa [loadTokens] using h
  | succ k ih =>
      intro acc bs h
      unfold loadTokens
      cases hr : readTokenRecord ver bs with
      | mk otr r =>
        cases otr with
        | none => simpa using h
        | some tr =>
            simp only []
            cases ha : token_add env acc tr.filepath tr.grid_x tr.grid_y tr.name with
            | none => exact ih acc r h
            | some mgr =>
                rcases token_add_eq_some env acc tr.filepath tr.grid_x tr.grid_y tr.name mgr ha
                  with ⟨hlt, t0, rfl⟩
                have hlen2 : (set_loaded_fields (acc ++ [t0]) tr).length ≤ 100 := by
                  rw [set_loaded_fields_append]
                  simp only [List.length_append, List.length_cons, List.length_nil]
                  omega
                exact ih _ r hlen2

theorem loadSuccessScene_tokens (env : Env) (file : List Nat) (s : Scene) (m0 : Map) :
    (loadSuccessScene env file s m0).tokens =
      (loadTokens env
        (detect_version file.length (parseHeader file).token_count
          (parseHeader file).fog_cols (parseHeader file).fog_rows)
        (parseHeader file).token_count [] (file.drop 300)).1 := rfl

theorem load_success_iff (env : Env) (file : List Nat) (s : Scene) :
    ((load_from_slot env file s).1 = true) ↔
      (¬ file.length < 300 ∧ (parseHeader file).magic = 0x56545401 ∧
       (env.img (cstr (parseHeader file).map_path)).isSome = true) := by
  by_cases hlen : file.length < 300
  · rw [load_from_slot_too_small env file s hlen]
    simp [hlen]
  · by_cases hm : (parseHeader file).magic = 0x56545401
    · cases hmap : env.img (cstr (parseHeader file).map_path) with
      | none =>
          rw [load_from_slot_map_failure env file s hlen hm hmap]
          simp [hlen, hm, hmap]
      | some wh =>
          have hex : ∃ m0, map_load env (gcalFromHeader s.gcal (parseHeader file)) s.map
              (parseHeader file).map_path = some m0 := by
            unfold map_load
            rw [hmap]
            cases wh
            exact ⟨_, rfl⟩
          rcases hex with ⟨m0, hml⟩
          rw [load_from_slot_success env file s m0 hlen hm hml]
          simp [hlen, hm, hmap]
    · rw [load_from_slot_bad_magic env file s hlen hm]
      simp [hlen, hm]

/-- C9: the roster never exceeds `MAX_TOKENS = 100` after a load, whatever
the file's declared `token_count` (excess records are dropped by
`token_add`'s capacity guard); and the load's outcome is exactly "header
present, magic valid, map decodable" — over-capacity alone never aborts. -/
theorem c9_roster_capacity (env : Env) (file : List Nat) (s : Scene)
    (hcap : s.tokens.length ≤ 100) :
    ((load_from_slot env file s).2.tokens).length ≤ 100 ∧
    (((load_from_slot env file s).1 = true) ↔
      (¬ file.length < 300 ∧ (parseHeader file).magic = 0x56545401 ∧
       (env.img (cstr (parseHeader file).map_path)).isSome = true)) := by
  refine ⟨?_, load_success_iff env file s⟩
  by_cases hlen : file.length < 300
  · rw [load_from_slot_too_small env file s hlen]
    exact hcap
  · by_cases hm : (parseHeader file).magic = 0x56545401
    · cases hmap : env.img (cstr (parseHeader file).map_path) with
      | none =>
          rw [load_from_slot_map_failure env file s hlen hm hmap]
          simp
      | some wh =>
          have hex : ∃ m0, map_load env (gcalFromHeader s.gcal (parseHeader file)) s.map
              (parseHeader file).map_path = some m0 := by
            unfold map_load
            rw [hmap]
            cases wh
            exact ⟨_, rfl⟩
          rcases hex with ⟨m0, hml⟩
          rw [load_from_slot_success env file s m0 hlen hm hml]
          rw [loadSuccessScene_tokens]
          exact loadTokens_length_le env _ _ [] _ (by simp)
    · rw [load_from_slot_bad_magic env file s hlen hm]
      exact hcap

/-- Witness for C9 at the concrete scene and the empty file. -/
theorem c9_roster_capacity_witness :
    ((load_from_slot envW [] sceneW).2.tokens).length ≤ 100 ∧
    (((load_from_slot envW [] sceneW).1 = true) ↔
      (¬ ([] : List Nat).length < 300 ∧ (parseHeader []).magic = 0x56545401 ∧
       (envW.img (cstr (parseHeader []).map_path)).isSome = true)) :=
  c9_roster_capacity envW [] sceneW (by decide)

theorem detect_version_v1 (tc fc fr : Nat) (htc : 26 ≤ tc)
    (hfog : fr * fc < 4294967296) :
    detect_version (300 + tc * 333 + fr * fc) tc fc fr = 1 := by
  have hm : fr * fc % 4294967296 = fr * fc := Nat.mod_eq_of_lt hfog
  have h5 : expected_size 5 tc fc fr = 300 + tc * 350 + fr * fc := by
    norm_num [expected_size, token_data_size_v5, hm]
  have h4 : expected_size 4 tc fc fr = 300 + tc * 342 + fr * fc := by
    norm_num [expected_size, token_data_size_v4, hm]
  have h3 : expected_size 3 tc fc fr = 300 + tc * 341 + fr * fc := by
    norm_num [expected_size, token_data_size_v3, hm]
  have h2 : expected_size 2 tc fc fr = 300 + tc * 337 + fr * fc := by
    norm_num [expected_size, token_data_size_v2, hm]
  unfold detect_version
  rw [h5, h4, h3, h2]
  rw [if_neg (by omega), if_neg (by omega), if_neg (by omega), if_neg (by omega)]

theorem readTokenRecord_v1_defaults (bs : List Nat) (tr : TokenRead) (r : List Nat)
    (h : readTokenRecord 1 bs = (some tr, r)) :
    tr.damage = 0 ∧ tr.squad = -1 ∧ tr.opacity = 255 ∧
    tr.conditions = List.replicate 8 false := by
  unfold readTokenRecord at h
  norm_num at h
  repeat' split at h
  all_goals simp_all
  all_goals (rcases h with ⟨rfl, rfl⟩; simp)

theorem loadTokens_v1_defaults (env : Env) :
    ∀ (n : Nat) (acc : List Token) (bs : List Nat),
      (∀ t ∈ acc, hasDefaultTrailers t) →
      ∀ t ∈ (loadTokens env 1 n acc bs).1, hasDefaultTrailers t := by
  intro n
  induction n with
  | zero => intro acc bs hacc; simpa [loadTokens] using hacc
  | succ k ih =>
      intro acc bs hacc
      unfold loadTokens
      cases hr : readTokenRecord 1 bs with
      | mk otr r =>
        cases otr with
        | none => simpa using hacc
        | some tr =>
            simp only []
            cases ha : token_add env acc tr.filepath tr.grid_x tr.grid_y tr.name with
            | none => exact ih acc r hacc
            | some mgr =>
                rcases token_add_eq_some env acc _ _ _ _ mgr ha with ⟨hlt, t0, rfl⟩
                have hdef := readTokenRecord_v1_defaults bs tr r hr
                have hacc2 : ∀ t ∈ set_loaded_fields (acc ++ [t0]) tr, hasDefaultTrailers t := by
                  rw [set_loaded_fields_append]
                  intro t ht
                  rcases List.mem_append.mp ht with h1 | h1
                  · exact hacc t h1
                  · rcases List.mem_singleton.mp h1 with rfl
                    exact ⟨hdef.1, hdef.2.1, hdef.2.2.1, hdef.2.2.2⟩
                exact ih _ r hacc2

set_option maxRecDepth 40000 in
/-- C7 counterexample: a non-embedding-family file of exactly the V1
expected size (one token, 5×5 all-visible fog) does NOT load its token with
safe defaults — the size heuristic classifies it as V5, so the trailer
reads consume fog bytes: damage and squad become 0x01010101, opacity 1,
and all eight conditions true. -/
theorem c7_counterexample_v1_size_not_defaults :
    ((load_from_slot envW fileV1Bad sceneW).2.tokens.map (fun t => t.damage)) = [16843009] ∧
    ((load_from_slot envW fileV1Bad sceneW).2.tokens.map (fun t => t.conditions)) =
      [List.replicate 8 true] := by
  refine ⟨by decide, by decide⟩

/-- C7 (amended): for a non-embedding-family file of exactly the V1
expected size `300 + tc * 333 + R * C` whose declared token count is at
least 26 (so the 100-byte tolerance cannot misclassify it as a newer
version) and whose declared fog cell count is below 2^32 (so the uint32
multiply at line 1845 does not wrap the size table), every loaded token
receives the safe defaults: damage 0, squad -1, opacity 255, all eight
condition flags false. -/
theorem c7_v1_file_loads_default_trailers (env : Env) (file : List Nat) (s : Scene)
    (hmagic : (parseHeader file).magic = 0x56545401)
    (hsize : file.length = 300 + (parseHeader file).token_count * 333 +
      (parseHeader file).fog_rows * (parseHeader file).fog_cols)
    (hfog : (parseHeader file).fog_rows * (parseHeader file).fog_cols < 4294967296)
    (htc : 26 ≤ (parseHeader file).token_count) :
    List.Forall hasDefaultTrailers (load_from_slot env file s).2.tokens := by
  have hlen : ¬ file.length < 300 := by omega
  rw [List.forall_iff_forall_mem]
  cases hmap : env.img (cstr (parseHeader file).map_path) with
  | none =>
      rw [load_from_slot_map_failure env file s hlen hmagic hmap]
      intro t ht
      simp at ht
  | some wh =>
      have hex : ∃ m0, map_load env (gcalFromHeader s.gcal (parseHeader file)) s.map
          (parseHeader file).map_path = some m0 := by
        unfold map_load
        rw [hmap]
        cases wh
        exact ⟨_, rfl⟩
      rcases hex with ⟨m0, hml⟩
      rw [load_from_slot_success env file s m0 hlen hmagic hml, loadSuccessScene_tokens]
      have hver : detect_version file.length (parseHeader file).token_count
          (parseHeader file).fog_cols (parseHeader file).fog_rows = 1 := by
        rw [hsize]
        exact detect_version_v1 _ _ _ htc hfog
      rw [hver]
      exact loadTokens_v1_defaults env _ [] _ (by simp)

set_option maxRecDepth 100000 in
theorem recV1W_length : recV1W.length = 333 := by decide

theorem fileV1W_length : fileV1W.length = 8958 := by
  have h1 : ((List.replicate 26 recV1W).flatten).length = 26 * recV1W.length := by
    induction (26 : Nat) with
    | zero => simp
    | succ k ihk => simp_all [List.replicate_succ, Nat.succ_mul, Nat.add_comm]
  unfold fileV1W
  rw [List.length_append, encodeHeader_length, h1, recV1W_length]

set_option maxRecDepth 100000 in
theorem fileV1W_header_fields :
    (parseHeader fileV1W).magic = 0x56545401 ∧
    (parseHeader fileV1W).token_count = 26 ∧
    (parseHeader fileV1W).fog_cols = 0 ∧
    (parseHeader fileV1W).fog_rows = 0 := by
  refine ⟨by decide, by decide, by decide, by decide⟩

theorem fileV1W_size_hyp :
    fileV1W.length = 300 + (parseHeader fileV1W).token_count * 333 +
      (parseHeader fileV1W).fog_rows * (parseHeader fileV1W).fog_cols := by
  rw [fileV1W_length, fileV1W_header_fields.2.1, fileV1W_header_fields.2.2.1,
    fileV1W_header_fields.2.2.2]

theorem fileV1W_fog_hyp :
    (parseHeader fileV1W).fog_rows * (parseHeader fileV1W).fog_cols < 4294967296 := by
  rw [fileV1W_header_fields.2.2.1, fileV1W_header_fields.2.2.2]
  norm_num

theorem fileV1W_tc_hyp : 26 ≤ (parseHeader fileV1W).token_count := by
  rw [fileV1W_header_fields.2.1]

-- The concrete facts about `fileV1W` are all established; sealing the
-- 8958-byte list keeps later elaboration from evaluating the loader on it.
attribute [irreducible] fileV1W

/-- Witness for C7 (amended) on a concrete 8958-byte V1 file with 26
tokens. -/
theorem c7_v1_file_loads_default_trailers_witness :
    List.Forall hasDefaultTrailers (load_from_slot envW fileV1W sceneW).2.tokens :=
  c7_v1_file_loads_default_trailers envW fileV1W sceneW
    fileV1W_header_fields.1 fileV1W_size_hyp fileV1W_fog_hyp fileV1W_tc_hyp

theorem take_chunk (n : Nat) (a b : List Nat) (h : a.length = n) :
    (a ++ b).take n = a := by
  subst h
  exact List.take_left a b

theorem drop_chunk (n : Nat) (a b : List Nat) (h : a.length = n) :
    (a ++ b).drop n = b := by
  subst h
  exact List.drop_left a b

theorem drop_chunk_add (n k : Nat) (a b : List Nat) (h : a.length = n) :
    (a ++ b).drop (n + k) = b.drop k := by
  subst h
  rw [List.drop_append]

theorem readN_chunk (n : Nat) (a b : List Nat) (h : a.length = n) :
    readN n (a ++ b) = (some a, b) := by
  subst h
  unfold readN
  rw [if_pos (by simp), List.take_left, List.drop_left]

theorem parseHeader_encodeHeader (h : SaveFileHeader) (rest : List Nat)
    (hm : h.magic < 4294967296) (hp : h.map_path.length = 256)
    (htc : h.token_count < 4294967296) (hfc : h.fog_cols < 4294967296)
    (hfr : h.fog_rows < 4294967296) (hgs : h.grid_size < 4294967296)
    (hgx : h.grid_offset_x < 4294967296) (hgy : h.grid_offset_y < 4294967296)
    (hsg : h.show_grid < 256)
    (hcx : h.camera_x < 4294967296) (hcy : h.camera_y < 4294967296)
    (hcz : h.camera_zoom < 4294967296) :
    parseHeader (encodeHeader h ++ rest) = h := by
  obtain ⟨m, p, tc, fc, fr, gs, gx, gy, sg, cx, cy, cz⟩ := h
  simp only at hm hp htc hfc hfr hgs hgx hgy hsg hcx hcy hcz
  have e0 : encodeHeader ⟨m, p, tc, fc, fr, gs, gx, gy, sg, cx, cy, cz⟩ ++ rest =
      u32le m ++ (padTrunc 256 p ++ (u32le tc ++ (u32le fc ++ (u32le fr ++ (u32le gs ++
      (u32le gx ++ (u32le gy ++ ([sg % 256, 0, 0, 0] ++ (u32le cx ++ (u32le cy ++
      (u32le cz ++ rest))))))))))) := by
    simp [encodeHeader, List.append_assoc]
  rw [e0]
  unfold parseHeader
  simp only []
  rw [drop_chunk 4 _ _ (u32le_length m)]
  rw [drop_chunk 256 _ _ (padTrunc_length 256 p)]
  rw [drop_chunk 4 _ _ (u32le_length tc)]
  rw [drop_chunk 4 _ _ (u32le_length fc)]
  rw [drop_chunk 4 _ _ (u32le_length fr)]
  rw [drop_chunk 4 _ _ (u32le_length gs)]
  rw [drop_chunk 4 _ _ (u32le_length gx)]
  rw [drop_chunk 4 _ _ (u32le_length gy)]
  rw [drop_chunk 4 _ _ (by simp : ([sg % 256, 0, 0, 0] : List Nat).length = 4)]
  rw [take_chunk 256 _ _ (padTrunc_length 256 p)]
  rw [show (8 : Nat) = 4 + 4 from rfl, drop_chunk_add 4 4 _ _ (u32le_length cx)]
  rw [drop_chunk 4 _ _ (u32le_length cx)]
  rw [drop_chunk 4 _ _ (u32le_length cy)]
  rw [decU32_u32le_append, decU32_u32le_append, decU32_u32le_append, decU32_u32le_append,
    decU32_u32le_append, decU32_u32le_append, decU32_u32le_append, decU32_u32le_append,
    decU32_u32le_append, decU32_u32le_append]
  simp only [List.cons_append, List.getD_cons_zero]
  rw [padTrunc_eq_self 256 p hp]
  simp only [SaveFileHeader.mk.injEq]
  refine ⟨?_, ?_, ?_, ?_, ?_, ?_, ?_, ?_, ?_, ?_, ?_, ?_⟩ <;> first
    | trivial
    | omega

theorem boolByte_bne (b : Bool) : ((boolByte b) != 0) = b := by
  cases b <;> rfl

theorem map_boolByte_roundtrip (l : List Bool) :
    (l.map boolByte).map (fun b => b != 0) = l := by
  induction l with
  | nil => rfl
  | cons x xs ih =>
      cases x <;> simp [boolByte, ih]

theorem strFix_eq_self_length (s : List Nat) (h : strFix 64 s = s) : s.length = 64 := by
  rw [← h]
  exact strFix_length 64 (by omega) s

theorem readTokenRecord_roundtrip (cwd : List Nat) (t : Token) (r : List Nat)
    (hx1 : -2147483648 ≤ t.grid_x) (hx2 : t.grid_x < 2147483648)
    (hy1 : -2147483648 ≤ t.grid_y) (hy2 : t.grid_y < 2147483648)
    (hs1 : -2147483648 ≤ t.grid_size) (hs2 : t.grid_size < 2147483648)
    (hd1 : -2147483648 ≤ t.damage) (hd2 : t.damage < 2147483648)
    (hq1 : -2147483648 ≤ t.squad) (hq2 : t.squad < 2147483648)
    (hop : t.opacity < 256) (hnm : t.name.length = 64) (hc : t.conditions.length = 8) :
    readTokenRecord 5 (tokenRecordBytes cwd t ++ r) =
      (some {
        filepath := savedPathBytes cwd t.filepath
        grid_x := t.grid_x
        grid_y := t.grid_y
        grid_size := t.grid_size
        name := t.name
        hidden := t.hidden
        damage := t.damage
        squad := t.squad
        opacity := t.opacity
        conditions := t.conditions }, r) := by
  have hcl : (t.conditions.map boolByte).length = 8 := by simp [hc]
  have e0 : tokenRecordBytes cwd t ++ r =
      savedPathBytes cwd t.filepath ++ (i32le t.grid_x ++ (i32le t.grid_y ++
      (i32le t.grid_size ++ (padTrunc 64 t.name ++ ([boolByte t.hidden] ++
      (i32le t.damage ++ (i32le t.squad ++ ([t.opacity % 256] ++
      ((t.conditions.map boolByte) ++ r))))))))) := by
    unfold tokenRecordBytes
    rw [List.take_of_length_le (by omega : (t.conditions.map boolByte).length ≤ 8)]
    rw [hc]
    simp [List.append_assoc]
  rw [e0]
  unfold readTokenRecord
  rw [readN_chunk 256 _ _ (savedPathBytes_length cwd t.filepath)]
  simp only []
  rw [readN_chunk 4 _ _ (i32le_length t.grid_x)]
  simp only []
  rw [readN_chunk 4 _ _ (i32le_length t.grid_y)]
  simp only []
  rw [readN_chunk 4 _ _ (i32le_length t.grid_size)]
  simp only []
  rw [readN_chunk 64 _ _ (padTrunc_length 64 t.name)]
  simp only []
  rw [readN_chunk 1 _ _ (rfl : ([boolByte t.hidden] : List Nat).length = 1)]
  simp only []
  rw [if_pos (by omega : 2 ≤ 5), if_pos (by omega : 3 ≤ 5), if_pos (by omega : 4 ≤ 5),
    if_pos (by omega : 5 ≤ 5)]
  rw [readN_chunk 4 _ _ (i32le_length t.damage)]
  simp only []
  rw [readN_chunk 4 _ _ (i32le_length t.squad)]
  simp only []
  rw [readN_chunk 1 _ _ (rfl : ([t.opacity % 256] : List Nat).length = 1)]
  simp only []
  rw [readN_chunk 8 _ _ hcl]
  simp only []
  rw [toI32_decU32_i32le_self t.grid_x hx1 hx2, toI32_decU32_i32le_self t.grid_y hy1 hy2,
    toI32_decU32_i32le_self t.grid_size hs1 hs2, toI32_decU32_i32le_self t.damage hd1 hd2,
    toI32_decU32_i32le_self t.squad hq1 hq2]
  rw [padTrunc_eq_self 64 t.name hnm]
  rw [map_boolByte_roundtrip t.conditions]
  simp only [List.getD_cons_zero, boolByte_bne]
  rw [Nat.mod_eq_of_lt hop]

theorem loadTokens_roundtrip (env : Env) (ts : List Token) :
    ∀ (acc : List Token) (r : List Nat),
      acc.length + ts.length ≤ 100 →
      (∀ t ∈ ts, TokenWF env t) →
      loadTokens env 5 ts.length acc ((ts.map (tokenRecordBytes env.cwd)).flatten ++ r) =
        (acc ++ ts.map (loadedToken env), r) := by
  induction ts with
  | nil =>
      intro acc r hle hwf
      simp [loadTokens]
  | cons t ts ih =>
      intro acc r hle hwf
      obtain ⟨⟨hx1, hx2⟩, ⟨hy1, hy2⟩, ⟨hs1, hs2⟩, ⟨hd1, hd2⟩, ⟨hq1, hq2⟩, hop, hname, hc, himg⟩ :=
        hwf t (by simp)
      have hnm : t.name.length = 64 := strFix_eq_self_length t.name hname
      have e0 : (((t :: ts).map (tokenRecordBytes env.cwd)).flatten ++ r) =
          tokenRecordBytes env.cwd t ++ (((ts.map (tokenRecordBytes env.cwd)).flatten) ++ r) := by
        simp
      rw [e0]
      simp only [List.length_cons]
      unfold loadTokens
      rw [readTokenRecord_roundtrip env.cwd t _ hx1 hx2 hy1 hy2 hs1 hs2 hd1 hd2 hq1 hq2 hop hnm hc]
      simp only []
      rw [token_add_success env acc _ _ _ _
        (by simp only [List.length_cons] at hle; omega) himg]
      simp only []
      rw [set_loaded_fields_append]
      have hres := ih (acc ++ [loadedToken env t]) r
        (by simp only [List.length_append, List.length_cons, List.length_nil] at hle ⊢; omega)
        (fun t2 ht2 => hwf t2 (by simp [ht2]))
      show loadTokens env 5 ts.length (acc ++ [loadedToken env t])
          ((ts.map (tokenRecordBytes env.cwd)).flatten ++ r) =
        (acc ++ (t :: ts).map (loadedToken env), r)
      rw [hres]
      simp

theorem loadFogRows_roundtrip (c : Nat) (rs : List (List Bool)) :
    ∀ (init : List (List Bool)) (r : List Nat),
      (∀ row ∈ rs, row.length = c) →
      (∀ row ∈ init, row.length = c) →
      init.length = rs.length →
      loadFogRows c 0 init ((rs.map (fun row => row.map boolByte)).flatten ++ r) = (rs, r) := by
  induction rs with
  | nil =>
      intro init r h1 h2 h3
      have : init = [] := List.length_eq_zero.mp (by simp [h3])
      subst this
      simp [loadFogRows]
  | cons row rows ih =>
      intro init r h1 h2 h3
      cases init with
      | nil => simp at h3
      | cons row0 init2 =>
          have hrow : row.length = c := h1 row (by simp)
          have hrow0 : row0.length = c := h2 row0 (by simp)
          have hbl : (row.map boolByte).length = c := by simp [hrow]
          have e0 : ((row :: rows).map (fun r2 => r2.map boolByte)).flatten ++ r =
              row.map boolByte ++ ((rows.map (fun r2 => r2.map boolByte)).flatten ++ r) := by
            simp
          rw [e0]
          unfold loadFogRows loadFogRow
          simp only []
          have havail : min c (row.map boolByte ++
              ((rows.map (fun r2 => r2.map boolByte)).flatten ++ r)).length = c := by
            simp [hbl]
          rw [havail]
          rw [take_chunk c _ _ hbl, drop_chunk c _ _ hbl]
          rw [map_boolByte_roundtrip row]
          rw [List.drop_of_length_le (by omega : row0.length ≤ c)]
          have hres := ih init2 r (fun r2 hr2 => h1 r2 (by simp [hr2]))
            (fun r2 hr2 => h2 r2 (by simp [hr2])) (by simpa using h3)
          rw [List.drop_zero]
          rw [hres]
          simp

theorem ofI32_toNat (z : Int) (h0 : 0 ≤ z) (h1 : z < 2147483648) : ofI32 z = z.toNat := by
  unfold ofI32
  omega

theorem loadFog_roundtrip (fog : FogOfWar) (r : List Nat)
    (hc0 : 0 ≤ fog.cols) (hc1 : fog.cols < 2147483648)
    (hr0 : 0 ≤ fog.rows) (hr1 : fog.rows < 2147483648)
    (hlen : fog.cells.length = fog.rows.toNat)
    (hrow : ∀ row ∈ fog.cells, row.length = fog.cols.toNat) :
    loadFog (fog_init fog.cols fog.rows) (ofI32 fog.cols) (ofI32 fog.rows)
        (fogBytes fog ++ r) =
      ({ cells := fog.cells, cols := fog.cols, rows := fog.rows }, r) := by
  unfold loadFog
  simp only [fog_init]
  rw [toI32_ofI32 fog.cols (by omega) hc1, toI32_ofI32 fog.rows (by omega) hr1]
  rw [if_neg (lt_irrefl fog.cols), if_neg (lt_irrefl fog.rows), if_neg (lt_irrefl fog.cols)]
  rw [List.take_of_length_le (by simp : (List.replicate fog.rows.toNat
    (List.replicate fog.cols.toNat true)).length ≤ fog.rows.toNat)]
  have hinit : ∀ row ∈ List.replicate fog.rows.toNat (List.replicate fog.cols.toNat true),
      row.length = fog.cols.toNat := by
    intro row hr2
    rw [List.eq_of_mem_replicate hr2]
    simp
  have hfb : fogBytes fog ++ r =
      ((fog.cells.map (fun row => row.map boolByte)).flatten ++ r) := rfl
  rw [hfb]
  rw [loadFogRows_roundtrip fog.cols.toNat fog.cells _ r hrow hinit (by simp [hlen])]
  simp only []
  rw [if_neg (lt_irrefl fog.rows)]
  rw [List.drop_of_length_le (by simp : (List.replicate fog.rows.toNat
    (List.replicate fog.cols.toNat true)).length ≤ fog.rows.toNat)]
  simp

theorem detect_version_v5_le (sz tc fc fr : Nat)
    (h : expected_size 5 tc fc fr ≤ sz) :
    detect_version sz tc fc fr = 5 := by
  unfold detect_version
  rw [if_pos (le_trans (Nat.sub_le _ _) h)]

theorem flatten_map_length_const (f : Token → List Nat) (c : Nat)
    (h : ∀ t, (f t).length = c) (l : List Token) :
    ((l.map f).flatten).length = l.length * c := by
  induction l with
  | nil => simp
  | cons x xs ih => simp [ih, h x, Nat.succ_mul, Nat.add_comm]

theorem flatten_rows_length (c : Nat) (rows : List (List Bool))
    (hrow : ∀ row ∈ rows, row.length = c) :
    ((rows.map (fun row => row.map boolByte)).flatten).length = rows.length * c := by
  induction rows with
  | nil => simp
  | cons row rs ih =>
      have h1 : row.length = c := hrow row (by simp)
      have h2 := ih (fun r2 hr2 => hrow r2 (by simp [hr2]))
      simp [h1, h2, Nat.succ_mul, Nat.add_comm]

theorem fogBytes_length (fog : FogOfWar)
    (hlen : fog.cells.length = fog.rows.toNat)
    (hrow : ∀ row ∈ fog.cells, row.length = fog.cols.toNat) :
    (fogBytes fog).length = fog.rows.toNat * fog.cols.toNat := by
  unfold fogBytes
  rw [flatten_rows_length fog.cols.toNat fog.cells hrow, hlen]

theorem ofI32_lt (z : Int) : ofI32 z < 4294967296 := by
  unfold ofI32
  omega

theorem ceil_div_bounds (w g : Int) (hw : 0 ≤ w) (hg : 0 < g) :
    0 ≤ (w + g - 1).tdiv g ∧ (w + g - 1).tdiv g ≤ w := by
  have ha : 0 ≤ w + g - 1 := by omega
  rw [Int.tdiv_eq_ediv ha (le_of_lt hg)]
  constructor
  · exact Int.ediv_nonneg ha (le_of_lt hg)
  · have h1 : w + g - 1 ≤ g - 1 + w * g := by
      nlinarith
    have h2 : (w + g - 1) / g ≤ (g - 1 + w * g) / g :=
      Int.ediv_le_ediv hg h1
    have h3 : (g - 1 + w * g) / g = (g - 1) / g + w := Int.add_mul_ediv_right _ _ (by omega)
    have h4 : (g - 1) / g = 0 := Int.ediv_eq_zero_of_lt (by omega) (by omega)
    omega

theorem forall2_loadedToken (env : Env) (ts : List Token)
    (h : ∀ t ∈ ts, strFix 64 t.name = t.name) :
    List.Forall₂ Token.persistEq (ts.map (loadedToken env)) ts := by
  induction ts with
  | nil => simp
  | cons t ts ih =>
      simp only [List.map_cons]
      refine List.Forall₂.cons ?_ (ih (fun t2 ht2 => h t2 (by simp [ht2])))
      unfold Token.persistEq loadedToken
      exact ⟨rfl, rfl, rfl, h t (by simp), rfl, rfl, rfl, rfl, rfl⟩

set_option maxHeartbeats 2000000 in
theorem save_load_roundtrip (env : Env) (s s0 : Scene) (hwf : SceneWF env s) :
    (load_from_slot env (save_to_slot env s) s0).1 = true ∧
    persistedEq (load_from_slot env (save_to_slot env s) s0).2 s := by
  obtain ⟨hcap, hts, hgs0, hgs1, ⟨hox1, hox2⟩, ⟨hoy1, hoy2⟩, hw0, hw1, hh0, hh1, himg,
    hfc, hfr, hflen, hfrow, hcx, hcy, hcz⟩ := hwf
  have hc0 : 0 ≤ s.fog.cols := by
    rw [hfc]
    exact (ceil_div_bounds s.map.width s.map.grid_size hw0 hgs0).1
  have hc1 : s.fog.cols < 2147483648 := by
    have := (ceil_div_bounds s.map.width s.map.grid_size hw0 hgs0).2
    rw [hfc]
    omega
  have hr0 : 0 ≤ s.fog.rows := by
    rw [hfr]
    exact (ceil_div_bounds s.map.height s.map.grid_size hh0 hgs0).1
  have hr1 : s.fog.rows < 2147483648 := by
    have := (ceil_div_bounds s.map.height s.map.grid_size hh0 hgs0).2
    rw [hfr]
    omega
  have hparse : parseHeader (save_to_slot env s) = saveHeader env s := by
    have e1 : save_to_slot env s = encodeHeader (saveHeader env s) ++
        ((s.tokens.map (tokenRecordBytes env.cwd)).flatten ++ fogBytes s.fog) := by
      unfold save_to_slot
      rw [List.append_assoc]
    rw [e1]
    refine parseHeader_encodeHeader _ _ ?_ ?_ ?_ ?_ ?_ ?_ ?_ ?_ ?_ ?_ ?_ ?_ <;>
      simp only [saveHeader]
    · norm_num
    · exact savedPathBytes_length env.cwd s.map.filepath
    · omega
    · exact ofI32_lt s.fog.cols
    · exact ofI32_lt s.fog.rows
    · exact ofI32_lt s.map.grid_size
    · exact ofI32_lt s.map.grid_offset_x
    · exact ofI32_lt s.map.grid_offset_y
    · cases s.show_grid <;> simp [boolByte]
    · exact hcx
    · exact hcy
    · exact hcz
  have hlen300 : ¬ (save_to_slot env s).length < 300 := by
    unfold save_to_slot
    simp [encodeHeader_length]
  have hmagic : (parseHeader (save_to_slot env s)).magic = 0x56545401 := by
    rw [hparse]
    rfl
  have hml : ∃ m0, map_load env (gcalFromHeader s0.gcal (parseHeader (save_to_slot env s)))
      s0.map (parseHeader (save_to_slot env s)).map_path = some m0 ∧
      m0.width = s.map.width ∧ m0.height = s.map.height := by
    rw [hparse]
    have hmp : (saveHeader env s).map_path = savedPathBytes env.cwd s.map.filepath := rfl
    rw [hmp]
    unfold map_load
    rw [himg]
    exact ⟨_, rfl, rfl, rfl⟩
  obtain ⟨m0, hml, hmw, hmh⟩ := hml
  rw [load_from_slot_success env _ s0 m0 hlen300 hmagic hml]
  refine ⟨rfl, ?_⟩
  show persistedEq (loadSuccessScene env (save_to_slot env s) s0 m0) s
  have hdrop : (save_to_slot env s).drop 300 =
      (s.tokens.map (tokenRecordBytes env.cwd)).flatten ++ fogBytes s.fog := by
    unfold save_to_slot
    rw [List.append_assoc]
    exact drop_chunk 300 _ _ (encodeHeader_length _)
  have hfilelen : (save_to_slot env s).length =
      300 + s.tokens.length * 350 + s.fog.rows.toNat * s.fog.cols.toNat := by
    unfold save_to_slot
    rw [List.length_append, List.length_append, encodeHeader_length,
      flatten_map_length_const (tokenRecordBytes env.cwd) 350
        (tokenRecordBytes_length env.cwd) s.tokens,
      fogBytes_length s.fog hflen hfrow]
  have hver : detect_version (save_to_slot env s).length s.tokens.length
      (ofI32 s.fog.cols) (ofI32 s.fog.rows) = 5 := by
    apply detect_version_v5_le
    rw [hfilelen, ofI32_toNat s.fog.cols hc0 hc1, ofI32_toNat s.fog.rows hr0 hr1]
    have hm := Nat.mod_le (s.fog.rows.toNat * s.fog.cols.toNat) 4294967296
    simp only [expected_size, token_data_size_v5]
    omega
  have hgsz : toI32 (ofI32 s.map.grid_size) = s.map.grid_size :=
    toI32_ofI32 _ (by omega) hgs1
  have hgox : toI32 (ofI32 s.map.grid_offset_x) = s.map.grid_offset_x :=
    toI32_ofI32 _ hox1 hox2
  have hgoy : toI32 (ofI32 s.map.grid_offset_y) = s.map.grid_offset_y :=
    toI32_ofI32 _ hoy1 hoy2
  have hcols : (m0.width + s.map.grid_size - 1).tdiv s.map.grid_size = s.fog.cols := by
    rw [hmw]
    exact hfc.symm
  have hrows : (m0.height + s.map.grid_size - 1).tdiv s.map.grid_size = s.fog.rows := by
    rw [hmh]
    exact hfr.symm
  have htok : loadTokens env 5 s.tokens.length [] ((save_to_slot env s).drop 300) =
      (s.tokens.map (loadedToken env), fogBytes s.fog) := by
    rw [hdrop]
    have h2 := loadTokens_roundtrip env s.tokens [] (fogBytes s.fog) (by simpa using hcap) hts
    simpa using h2
  have hfog : loadFog (fog_init s.fog.cols s.fog.rows) (ofI32 s.fog.cols)
      (ofI32 s.fog.rows) (fogBytes s.fog) =
      ({ cells := s.fog.cells, cols := s.fog.cols, rows := s.fog.rows }, []) := by
    have h2 := loadFog_roundtrip s.fog [] hc0 hc1 hr0 hr1 hflen hfrow
    simpa using h2
  unfold loadSuccessScene
  simp only []
  rw [hparse]
  simp only [saveHeader]
  rw [hgsz, hgox, hgoy, hcols, hrows, hver, htok]
  simp only []
  rw [hfog]
  unfold persistedEq
  simp only []
  refine ⟨by rw [List.length_map], forall2_loadedToken env s.tokens
    (fun t ht => (hts t ht).2.2.2.2.2.2.1), trivial, trivial, trivial, trivial,
    boolByte_bne s.show_grid, trivial, trivial, trivial⟩

/-- C1: for every well-formed SceneState within capacity bounds (roster at
most `MAX_TOKENS`, every saved image path decodable, data-model invariants
holding), `save_to_slot` followed by `load_from_slot` — into any prior
state `s0`, e.g. a fresh process — succeeds and reproduces every persisted
field: token count, each token's grid position, footprint, name, hidden
flag, damage, squad, opacity and condition flags, the grid size and
offsets, the fog bitmap, `show_grid`, and the camera target pose.  Only
transient fields (selection, cached damage textures) and the normalized
image paths are outside the comparison. -/
theorem c1_save_load_roundtrip (env : Env) (s s0 : Scene) (hwf : SceneWF env s) :
    (load_from_slot env (save_to_slot env s) s0).1 = true ∧
    persistedEq (load_from_slot env (save_to_slot env s) s0).2 s :=
  save_load_roundtrip env s s0 hwf

set_option maxRecDepth 100000 in
/-- Witness for C1 on the concrete one-token scene, loaded into a fresh
empty scene. -/
theorem c1_save_load_roundtrip_witness :
    (load_from_slot envW (save_to_slot envW sceneW) sceneEmptyW).1 = true ∧
    persistedEq (load_from_slot envW (save_to_slot envW sceneW) sceneEmptyW).2 sceneW :=
  c1_save_load_roundtrip envW sceneW sceneEmptyW
    (by unfold SceneWF TokenWF int32Range; decide)

set_option maxRecDepth 100000 in
/-- C10 counterexample: loading a well-formed V5 save file whose single
token record stores footprint 7 yields a roster token with `grid_size = 7`,
outside 1..4 — the loader assigns the stored footprint without clamping. -/
theorem c10_counterexample_footprint_7 :
    ((load_from_slot envW fileSize7 sceneW).2.tokens.map (fun t => t.grid_size)) = [7] ∧
    ¬ (1 ≤ (7 : Int) ∧ (7 : Int) ≤ 4) := by
  refine ⟨by decide, by decide⟩

theorem forall2_footprint (l1 l2 : List Token) (h : List.Forall₂ Token.persistEq l1 l2)
    (h2 : ∀ t ∈ l2, footprintOK t) : ∀ t ∈ l1, footprintOK t := by
  induction h with
  | nil => simp
  | @cons a b xs ys hR hF ih =>
      intro t ht
      rcases List.mem_cons.mp ht with rfl | ht2
      · have hsz : t.grid_size = b.grid_size := hR.2.2.1
        have hr := h2 b (by simp)
        unfold footprintOK at hr ⊢
        omega
      · exact ih (fun t2 ht3 => h2 t2 (by simp [ht3])) t ht2

set_option maxHeartbeats 2000000 in
/-- C10 (amended): resizing, adding and copying keep every token's
footprint within 1..4, and loading a file produced by `save_to_slot` from
a roster whose footprints are within 1..4 keeps them within 1..4 (the
loader assigns the stored footprint verbatim, so this fails for arbitrary
hand-crafted files — see the counterexample). -/
theorem c10_footprint_range (env : Env) (s s0 : Scene) (mgr : List Token)
    (i d index ngx ngy gx gy : Int) (fp nm : List Nat)
    (hwf : SceneWF env s) (hrange : ∀ t ∈ s.tokens, footprintOK t)
    (hmgr : ∀ t ∈ mgr, footprintOK t) :
    (∀ t ∈ token_resize mgr i d, footprintOK t) ∧
    (∀ t ∈ (token_add env mgr fp gx gy nm).getD mgr, footprintOK t) ∧
    (∀ t ∈ (token_copy env mgr index ngx ngy).getD mgr, footprintOK t) ∧
    (∀ t ∈ (load_from_slot env (save_to_slot env s) s0).2.tokens, footprintOK t) := by
  refine ⟨?_, ?_, ?_, ?_⟩
  · unfold token_resize
    split
    · exact hmgr
    · cases hg : mgr.get? i.toNat with
      | none => simpa [hg] using hmgr
      | some t0 =>
          simp only [hg]
          split
          · intro t ht
            rcases List.mem_or_eq_of_mem_set ht with ht2 | rfl
            · exact hmgr t ht2
            · have := hmgr t0 (List.get?_mem hg)
              unfold footprintOK at this ⊢
              rename_i hcond
              simp only []
              omega
          · exact hmgr
  · unfold token_add
    split
    · simpa using hmgr
    · cases he : env.img (cstr fp) with
      | none => simpa using hmgr
      | some wh =>
          simp only [Option.getD_some]
          intro t ht
          rcases List.mem_append.mp ht with ht2 | ht2
          · exact hmgr t ht2
          · rcases List.mem_singleton.mp ht2 with rfl
            exact ⟨by simp, by simp⟩
  · unfold token_copy
    split
    · simpa using hmgr
    · split
      · simpa using hmgr
      · cases hg : mgr.get? index.toNat with
        | none => simpa using hmgr
        | some src =>
            simp only []
            cases he : env.img (cstr src.filepath) with
            | none => simpa using hmgr
            | some wh =>
                simp only [Option.getD_some]
                intro t ht
                rcases List.mem_append.mp ht with ht2 | ht2
                · exact hmgr t ht2
                · rcases List.mem_singleton.mp ht2 with rfl
                  have h3 := hmgr src (List.get?_mem hg)
                  unfold footprintOK at h3 ⊢
                  simpa using h3
  · exact forall2_footprint _ _ ((save_load_roundtrip env s s0 hwf).2).2.1 hrange

set_option maxRecDepth 100000 in
/-- Witness for C10 (amended) at a concrete roster and the concrete
round-trip scene. -/
theorem c10_footprint_range_witness :
    List.Forall footprintOK (token_resize [tokW] 0 1) ∧
    List.Forall footprintOK
      ((token_add envW [tokW] (strFix 256 [97]) 1 1 (strFix 64 [98])).getD [tokW]) ∧
    List.Forall footprintOK ((token_copy envW [tokW] 0 3 3).getD [tokW]) ∧
    List.Forall footprintOK
      (load_from_slot envW (save_to_slot envW sceneW) sceneEmptyW).2.tokens := by
  have h := c10_footprint_range envW sceneW sceneEmptyW [tokW] 0 1 0 3 3 1 1
    (strFix 256 [97]) (strFix 64 [98])
    (by unfold SceneWF TokenWF int32Range; decide)
    (by unfold footprintOK; decide)
    (by unfold footprintOK; decide)
  exact ⟨(List.forall_iff_forall_mem).mpr h.1, (List.forall_iff_forall_mem).mpr h.2.1,
    (List.forall_iff_forall_mem).mpr h.2.2.1, (List.forall_iff_forall_mem).mpr h.2.2.2⟩
